import Mathlib

/-!
# Verification of the AIDGI index engine (src/AIDGI.py)

Shallow embedding of the computational core of the AIDGI Streamlit app:
the static industry dataset (lines 8-17), the composite scoring formula
`calculate_aidgi` (lines 20-27), the weight normalization block
(lines 102-107), the descending sort producing the ranked table
(lines 110-111), the per-industry filter (line 163) and the long-format
melt projection (line 146).

Floating point arithmetic is modelled over the real numbers.
-/

open Real

/-- One row of the static dataframe (lines 8-17 of src/AIDGI.py):
the `Industry` name column plus the five raw metric columns. -/
structure MetricRecord where
  industry : String
  ai_adoption : ℝ
  efficiency_improvement : ℝ
  revenue_growth : ℝ
  market_size : ℝ
  growth_potential : ℝ

/-- Row 0 of the dataframe. -/
def healthcare : MetricRecord := ⟨"Healthcare", 75, 30, 20, 200, 90⟩

/-- Row 1 of the dataframe. -/
def finance : MetricRecord := ⟨"Finance", 80, 35, 25, 180, 85⟩

/-- Row 2 of the dataframe. -/
def retail : MetricRecord := ⟨"Retail", 70, 25, 15, 150, 80⟩

/-- Row 3 of the dataframe. -/
def manufacturing : MetricRecord := ⟨"Manufacturing", 65, 20, 10, 170, 75⟩

/-- Row 4 of the dataframe. -/
def transportation : MetricRecord := ⟨"Transportation", 60, 15, 5, 140, 70⟩

/-- Row 5 of the dataframe. -/
def education : MetricRecord := ⟨"Education", 55, 10, 5, 120, 65⟩

/-- Row 6 of the dataframe. -/
def entertainment : MetricRecord := ⟨"Entertainment", 50, 20, 10, 130, 60⟩

/-- The static seven-industry dataset `data` / `df` (lines 8-17),
in its original row order. -/
def data : List MetricRecord :=
  [healthcare, finance, retail, manufacturing, transportation, education, entertainment]

/-- The scoring formula `calculate_aidgi` (lines 20-27):
a weighted sum of the three linear metrics, the natural logarithm of the
market size (`np.log`) and the exponential of `growth_potential / 100`
(`np.exp`). -/
noncomputable def calculate_aidgi (row : MetricRecord)
    (ai_weight eff_weight rev_weight market_weight growth_weight : ℝ) : ℝ :=
  ai_weight * row.ai_adoption +
  eff_weight * row.efficiency_improvement +
  rev_weight * row.revenue_growth +
  market_weight * Real.log row.market_size +
  growth_weight * Real.exp (row.growth_potential / 100)

/-- The five raw slider weights (lines 95-99). -/
structure RawWeights where
  ai_weight : ℝ
  eff_weight : ℝ
  rev_weight : ℝ
  market_weight : ℝ
  growth_weight : ℝ

/-- `total_weight` (line 102): the sum of the five raw weights. -/
def total_weight (w : RawWeights) : ℝ :=
  w.ai_weight + w.eff_weight + w.rev_weight + w.market_weight + w.growth_weight

/-- Failure modes of the normalization block.
`zeroDivisionError` is Python's built-in exception, raised by the float
division `ai_weight /= total_weight` (line 103) when `total_weight == 0.0`.
`degenerateWeightsError` is Modelled from the spec: the spec postulates a
typed `DegenerateWeightsError` for the all-zero-weights case, but no such
error is defined or raised anywhere in src/AIDGI.py. -/
inductive NormalizeError where
  | zeroDivisionError
  | degenerateWeightsError
  deriving DecidableEq

/-- The normalization block (lines 102-107): each weight is divided by
`total_weight`.  Python float division by zero raises the built-in
`ZeroDivisionError`, which is the error branch here; on a nonzero total the
five divisions succeed. -/
noncomputable def normalize_weights (w : RawWeights) : Except NormalizeError RawWeights :=
  if total_weight w = 0 then Except.error NormalizeError.zeroDivisionError
  else Except.ok
    ⟨w.ai_weight / total_weight w, w.eff_weight / total_weight w,
     w.rev_weight / total_weight w, w.market_weight / total_weight w,
     w.growth_weight / total_weight w⟩

/-- A dataframe row after line 110: the metric record together with its
computed `AIDGI` column. -/
structure ScoredRecord where
  record : MetricRecord
  aidgi : ℝ

/-- Line 110: `df.apply(calculate_aidgi, axis=1, args=(...))` — every row of
the static dataset is given its AIDGI score, in the original row order. -/
noncomputable def score_rows (w : RawWeights) : List ScoredRecord :=
  data.map (fun row =>
    ⟨row, calculate_aidgi row w.ai_weight w.eff_weight w.rev_weight
            w.market_weight w.growth_weight⟩)

/-- Line 111: `df.sort_values(by='AIDGI', ascending=False)`.
pandas computes a descending sort as an ascending argsort followed by a
whole-array reversal (`pandas.core.sorting.nargsort`: `indexer =
non_nans.argsort(kind=kind)` then `indexer = indexer[::-1]`).  The default
`kind='quicksort'` is numpy's introsort, which runs a plain stable insertion
sort on any array shorter than 16 elements — and this dataframe always has
exactly 7 rows.  The embedding is therefore a stable ascending insertion
sort by the AIDGI column followed by `List.reverse`. -/
noncomputable def sort_values_desc (t : List ScoredRecord) : List ScoredRecord :=
  (t.insertionSort (fun a b => a.aidgi ≤ b.aidgi)).reverse

/-- The ranked table produced from a given (post-normalization) weight
vector: lines 110-111 applied to the static dataset. -/
noncomputable def full_table (w : RawWeights) : List ScoredRecord :=
  sort_values_desc (score_rows w)

/-- The whole weight-change transition (lines 102-111): normalize the raw
slider weights, then rescore and re-sort the table. -/
noncomputable def recompute (w : RawWeights) : Except NormalizeError (List ScoredRecord) :=
  Except.map full_table (normalize_weights w)

/-- Modelled from the spec: the RankedTable the spec describes — "sorted by
`index_score` descending; ties broken by original MetricSet order (stable
sort)".  A stable descending insertion sort: an element moves past a later
element only when its score is strictly smaller, so equal scores keep the
original order.  Used only to compare the spec's described sort with the
code's actual one. -/
noncomputable def spec_insert_desc (x : ScoredRecord) :
    List ScoredRecord → List ScoredRecord
  | [] => [x]
  | y :: ys => if x.aidgi < y.aidgi then y :: spec_insert_desc x ys else x :: y :: ys

/-- Modelled from the spec: stable descending insertion sort (see
`spec_insert_desc`). -/
noncomputable def spec_stable_sort_desc : List ScoredRecord → List ScoredRecord
  | [] => []
  | x :: xs => spec_insert_desc x (spec_stable_sort_desc xs)

/-- Modelled from the spec: the RankedTable as the spec describes it —
scores computed per record, then stably sorted descending. -/
noncomputable def spec_ranked_table (w : RawWeights) : List ScoredRecord :=
  spec_stable_sort_desc (score_rows w)

/-- Line 163: `filtered_df = df[df['Industry'] == industry]` — the rows of
the ranked table whose industry name equals the selected name. -/
def filtered_df (t : List ScoredRecord) (industry : String) : List ScoredRecord :=
  t.filter (fun r => r.record.industry == industry)

/-- Failure mode of the detail lookup.  Modelled from the spec: the spec
postulates a `NotFoundError` for lookups of unknown names, but the code's
boolean-mask filter (line 163) never raises — an unknown name just yields an
empty dataframe. -/
inductive QueryError where
  | notFound
  deriving DecidableEq

/-- The detail lookup as the code performs it: the filter of line 163,
wrapped in `Except` to make the spec's claimed `NotFoundError` statable.
The Python code has no error path here, so the result is always `ok`. -/
def detail_lookup (t : List ScoredRecord) (industry : String) :
    Except QueryError (List ScoredRecord) :=
  Except.ok (filtered_df t industry)

/-- Failure mode of batch scoring.  Modelled from the spec: the spec
postulates an `InvalidMetricError` for non-positive market sizes or
non-finite metrics, but `calculate_aidgi` (lines 20-27) performs no
validation and `np.log` / `np.exp` never raise (on non-positive input
`np.log` emits a RuntimeWarning and returns `nan` / `-inf`). -/
inductive ScoreError where
  | invalidMetric
  deriving DecidableEq

/-- Batch scoring as the code performs it (line 110): `calculate_aidgi` is
applied to every row unconditionally; there is no validation and no error
path, so the result is always `ok` with one score per row. -/
noncomputable def score_batch (rows : List MetricRecord) (w : RawWeights) :
    Except ScoreError (List ℝ) :=
  Except.ok (rows.map (fun row =>
    calculate_aidgi row w.ai_weight w.eff_weight w.rev_weight
      w.market_weight w.growth_weight))

/-- The five metric columns passed as `value_vars` to `df.melt` (line 146). -/
def value_vars : List String :=
  ["AI_Adoption", "Efficiency_Improvement", "Revenue_Growth", "Market_Size", "Growth_Potential"]

/-- Column lookup by name, as `df[c]` resolves the five metric columns.
(`df[c]` for a name outside the dataframe's columns raises a KeyError; the
melt call only ever passes the five metric column names, so the fallback
branch is unreachable in the program.) -/
noncomputable def column_value (r : MetricRecord) (c : String) : ℝ :=
  if c = "AI_Adoption" then r.ai_adoption
  else if c = "Efficiency_Improvement" then r.efficiency_improvement
  else if c = "Revenue_Growth" then r.revenue_growth
  else if c = "Market_Size" then r.market_size
  else if c = "Growth_Potential" then r.growth_potential
  else 0

/-- Line 146: `df.melt(id_vars=['Industry'], value_vars=[...])`.
pandas melt emits one block per `value_var`, in the given order, each block
listing every row of the dataframe in row order as an
(Industry, variable, value) triple. -/
noncomputable def melt (t : List ScoredRecord) : List String → List (String × String × ℝ)
  | [] => []
  | v :: vs => t.map (fun r => (r.record.industry, v, column_value r.record v)) ++ melt t vs

/-- The same long-format projection taken directly from the raw metric
records, with no scoring and no weights involved: the weight-free reference
point for the melt projection. -/
noncomputable def melt_records (rows : List MetricRecord) :
    List String → List (String × String × ℝ)
  | [] => []
  | v :: vs => rows.map (fun r => (r.industry, v, column_value r v)) ++ melt_records rows vs

/-- Multiplying every raw slider weight by the same constant, before the
normalization block runs. -/
def scale_weights (c : ℝ) (w : RawWeights) : RawWeights :=
  ⟨c * w.ai_weight, c * w.eff_weight, c * w.rev_weight,
   c * w.market_weight, c * w.growth_weight⟩

/- ------------------------------------------------------------------ -/
/- Helper lemmas shared by several claims.                            -/
/- ------------------------------------------------------------------ -/

/-- The descending sort is a permutation of its input. -/
lemma perm_sort_values_desc (t : List ScoredRecord) :
    List.Perm (sort_values_desc t) t :=
  (List.reverse_perm _).trans (List.perm_insertionSort _ t)

/-- The ranked table is a permutation of the freshly scored rows. -/
lemma perm_full_table (w : RawWeights) :
    List.Perm (full_table w) (score_rows w) :=
  perm_sort_values_desc _

/-- The descending sort produces a table that is pairwise descending in the
AIDGI column. -/
lemma sorted_sort_values_desc (t : List ScoredRecord) :
    List.Pairwise (fun a b : ScoredRecord => b.aidgi ≤ a.aidgi) (sort_values_desc t) := by
  unfold sort_values_desc
  rw [List.pairwise_reverse]
  haveI h1 : IsTotal ScoredRecord (fun a b => a.aidgi ≤ b.aidgi) :=
    ⟨fun a b => le_total _ _⟩
  haveI h2 : IsTrans ScoredRecord (fun a b => a.aidgi ≤ b.aidgi) :=
    ⟨fun a b c hab hbc => le_trans hab hbc⟩
  exact List.sorted_insertionSort _ t

/-- The `Industry` column of the static dataset, in row order. -/
lemma data_names : data.map MetricRecord.industry =
    ["Healthcare", "Finance", "Retail", "Manufacturing", "Transportation",
     "Education", "Entertainment"] := rfl

/-- Scoring the dataset with weights (0, 0, 1, 0, 0) gives every row its
raw revenue-growth value as its AIDGI score. -/
lemma score_rows_w0 : score_rows ⟨0, 0, 1, 0, 0⟩ =
    [⟨healthcare, 20⟩, ⟨finance, 25⟩, ⟨retail, 15⟩, ⟨manufacturing, 10⟩,
     ⟨transportation, 5⟩, ⟨education, 5⟩, ⟨entertainment, 10⟩] := by
  norm_num [score_rows, data, calculate_aidgi, healthcare, finance, retail,
    manufacturing, transportation, education, entertainment]

/-- The ranked table at weights (0, 0, 1, 0, 0).  Manufacturing and
Entertainment tie at score 10, and Transportation and Education tie at
score 5; in both tied groups the descending sort emits the rows in
reversed original order. -/
lemma full_table_w0 : full_table ⟨0, 0, 1, 0, 0⟩ =
    [⟨finance, 25⟩, ⟨healthcare, 20⟩, ⟨retail, 15⟩, ⟨entertainment, 10⟩,
     ⟨manufacturing, 10⟩, ⟨education, 5⟩, ⟨transportation, 5⟩] := by
  rw [full_table, score_rows_w0]
  norm_num [sort_values_desc, List.insertionSort, List.orderedInsert]

/-- The RankedTable the spec describes, at weights (0, 0, 1, 0, 0): tied
rows keep their original order (Manufacturing before Entertainment,
Transportation before Education). -/
lemma spec_ranked_table_w0 : spec_ranked_table ⟨0, 0, 1, 0, 0⟩ =
    [⟨finance, 25⟩, ⟨healthcare, 20⟩, ⟨retail, 15⟩, ⟨manufacturing, 10⟩,
     ⟨entertainment, 10⟩, ⟨transportation, 5⟩, ⟨education, 5⟩] := by
  rw [spec_ranked_table, score_rows_w0]
  norm_num [spec_stable_sort_desc, spec_insert_desc]

/- ------------------------------------------------------------------ -/
/- Claim theorems.                                                    -/
/- ------------------------------------------------------------------ -/

/-- C1: for every weight vector, every entry of the ranked table carries an
index score equal to
w_adoption * ai_adoption + w_efficiency * efficiency_improvement +
w_revenue * revenue_growth + w_market * ln(market_size) +
w_growth * exp(growth_potential / 100). -/
theorem c1_score_formula (w : RawWeights) (e : ScoredRecord)
    (he : e ∈ full_table w) :
    e.aidgi =
      w.ai_weight * e.record.ai_adoption +
      w.eff_weight * e.record.efficiency_improvement +
      w.rev_weight * e.record.revenue_growth +
      w.market_weight * Real.log e.record.market_size +
      w.growth_weight * Real.exp (e.record.growth_potential / 100) := by
  have h2 : e ∈ score_rows w := ((perm_full_table w).mem_iff).mp he
  rcases List.mem_map.mp h2 with ⟨row, _, rfl⟩
  rfl

/-- Witness for C1 at weights (0, 0, 1, 0, 0) and the Healthcare entry of
the concrete ranked table. -/
theorem c1_score_formula_witness :
    (⟨healthcare, 20⟩ : ScoredRecord) ∈ full_table ⟨0, 0, 1, 0, 0⟩ ∧
    (⟨healthcare, 20⟩ : ScoredRecord).aidgi =
      (0 : ℝ) * healthcare.ai_adoption + 0 * healthcare.efficiency_improvement +
      1 * healthcare.revenue_growth + 0 * Real.log healthcare.market_size +
      0 * Real.exp (healthcare.growth_potential / 100) := by
  have hm : (⟨healthcare, 20⟩ : ScoredRecord) ∈ full_table ⟨0, 0, 1, 0, 0⟩ := by
    rw [full_table_w0]
    simp
  exact ⟨hm, c1_score_formula ⟨0, 0, 1, 0, 0⟩ ⟨healthcare, 20⟩ hm⟩

/-- C2: for non-negative raw weights with positive sum, the normalization
block succeeds, each output weight is the corresponding input divided by the
sum of the inputs, and the outputs sum to 1 (hence to 1 within 1e-9). -/
theorem c2_normalize (w : RawWeights)
    (_h1 : 0 ≤ w.ai_weight) (_h2 : 0 ≤ w.eff_weight) (_h3 : 0 ≤ w.rev_weight)
    (_h4 : 0 ≤ w.market_weight) (_h5 : 0 ≤ w.growth_weight)
    (hpos : 0 < total_weight w) :
    normalize_weights w = Except.ok
      ⟨w.ai_weight / total_weight w, w.eff_weight / total_weight w,
       w.rev_weight / total_weight w, w.market_weight / total_weight w,
       w.growth_weight / total_weight w⟩ ∧
    w.ai_weight / total_weight w + w.eff_weight / total_weight w +
      w.rev_weight / total_weight w + w.market_weight / total_weight w +
      w.growth_weight / total_weight w = 1 ∧
    |w.ai_weight / total_weight w + w.eff_weight / total_weight w +
      w.rev_weight / total_weight w + w.market_weight / total_weight w +
      w.growth_weight / total_weight w - 1| ≤ 1e-9 := by
  have hne : total_weight w ≠ 0 := ne_of_gt hpos
  have hsum : w.ai_weight / total_weight w + w.eff_weight / total_weight w +
      w.rev_weight / total_weight w + w.market_weight / total_weight w +
      w.growth_weight / total_weight w = 1 := by
    rw [div_add_div_same, div_add_div_same, div_add_div_same, div_add_div_same]
    exact div_self hne
  refine ⟨?_, hsum, ?_⟩
  · rw [normalize_weights, if_neg hne]
  · rw [hsum]
    norm_num

/-- Witness for C2 at the app's default slider weights
(0.35, 0.25, 0.20, 0.10, 0.10). -/
theorem c2_normalize_witness :
    (0.35 : ℝ) / total_weight ⟨0.35, 0.25, 0.20, 0.10, 0.10⟩ +
    0.25 / total_weight ⟨0.35, 0.25, 0.20, 0.10, 0.10⟩ +
    0.20 / total_weight ⟨0.35, 0.25, 0.20, 0.10, 0.10⟩ +
    0.10 / total_weight ⟨0.35, 0.25, 0.20, 0.10, 0.10⟩ +
    0.10 / total_weight ⟨0.35, 0.25, 0.20, 0.10, 0.10⟩ = 1 :=
  (c2_normalize ⟨0.35, 0.25, 0.20, 0.10, 0.10⟩ (by norm_num) (by norm_num)
    (by norm_num) (by norm_num) (by norm_num) (by norm_num [total_weight])).2.1

/-- C3 counterexample: with all five raw weights zero, the normalization
block hits Python's built-in ZeroDivisionError — it performs the division by
zero; it does not fail with the spec's DegenerateWeightsError (no such error
exists anywhere in the code). -/
theorem c3_counterexample :
    normalize_weights ⟨0, 0, 0, 0, 0⟩ = Except.error NormalizeError.zeroDivisionError ∧
    normalize_weights ⟨0, 0, 0, 0, 0⟩ ≠ Except.error NormalizeError.degenerateWeightsError := by
  have h : normalize_weights ⟨0, 0, 0, 0, 0⟩ =
      Except.error NormalizeError.zeroDivisionError := by
    rw [normalize_weights, if_pos (by norm_num [total_weight])]
  refine ⟨h, ?_⟩
  rw [h]
  simp

/-- C3 amended: whenever the raw weights sum to zero, the normalization
block raises Python's built-in ZeroDivisionError from the division by zero
(no DegenerateWeightsError is defined in the code). -/
theorem c3_amended_zero_division (w : RawWeights) (h : total_weight w = 0) :
    normalize_weights w = Except.error NormalizeError.zeroDivisionError := by
  rw [normalize_weights, if_pos h]

/-- Witness for the amended C3 at the all-zero weight vector. -/
theorem c3_amended_zero_division_witness :
    total_weight ⟨0, 0, 0, 0, 0⟩ = 0 ∧
    normalize_weights ⟨0, 0, 0, 0, 0⟩ = Except.error NormalizeError.zeroDivisionError := by
  have h : total_weight ⟨0, 0, 0, 0, 0⟩ = 0 := by norm_num [total_weight]
  exact ⟨h, c3_amended_zero_division ⟨0, 0, 0, 0, 0⟩ h⟩

/-- C4 counterexample: at raw weights (0, 0, 1, 0, 0) — which normalize to
themselves — the ranked table the code produces differs from the spec's
stable-descending RankedTable: Manufacturing and Entertainment tie at score
10 (and Transportation and Education tie at 5), and the code emits each tied
group in reversed original order, not original order. -/
theorem c4_counterexample :
    normalize_weights ⟨0, 0, 1, 0, 0⟩ = Except.ok ⟨0, 0, 1, 0, 0⟩ ∧
    full_table ⟨0, 0, 1, 0, 0⟩ ≠ spec_ranked_table ⟨0, 0, 1, 0, 0⟩ := by
  constructor
  · rw [normalize_weights, if_neg (by norm_num [total_weight])]
    norm_num [total_weight]
  · rw [full_table_w0, spec_ranked_table_w0]
    simp [healthcare, finance, retail, manufacturing, transportation,
      education, entertainment]

/-- C4 amended: every ranked table the code produces is sorted by the AIDGI
column in descending order — every entry's score is greater than or equal to
every later entry's score, in particular any two adjacent entries satisfy
index_score[i] >= index_score[i+1].  (The tie-breaking half of the original
claim is false: see the counterexample.) -/
theorem c4_amended_sorted_desc (w : RawWeights) :
    List.Pairwise (fun a b : ScoredRecord => b.aidgi ≤ a.aidgi) (full_table w) :=
  sorted_sort_values_desc _

/-- C5: scaling all five raw weights by a positive constant before
normalization leaves the entire recomputation (normalize, rescore, re-sort)
unchanged. -/
theorem c5_scale_invariance (w : RawWeights) (c : ℝ) (hc : 0 < c)
    (ht : 0 < total_weight w) :
    recompute (scale_weights c w) = recompute w := by
  have hcne : c ≠ 0 := ne_of_gt hc
  have htne : total_weight w ≠ 0 := ne_of_gt ht
  have htc : total_weight (scale_weights c w) = c * total_weight w := by
    simp only [total_weight, scale_weights]
    ring
  have hprod : total_weight (scale_weights c w) ≠ 0 := by
    rw [htc]
    exact mul_ne_zero hcne htne
  unfold recompute normalize_weights
  rw [if_neg hprod, if_neg htne]
  simp only [htc]
  simp only [scale_weights]
  simp only [mul_div_mul_left _ _ hcne]

/-- Witness for C5: doubling the default slider weights yields the same
recomputation as the defaults. -/
theorem c5_scale_invariance_witness :
    (0 : ℝ) < 2 ∧ 0 < total_weight ⟨0.35, 0.25, 0.20, 0.10, 0.10⟩ ∧
    recompute (scale_weights 2 ⟨0.35, 0.25, 0.20, 0.10, 0.10⟩) =
      recompute ⟨0.35, 0.25, 0.20, 0.10, 0.10⟩ :=
  ⟨by norm_num, by norm_num [total_weight],
    c5_scale_invariance ⟨0.35, 0.25, 0.20, 0.10, 0.10⟩ 2 (by norm_num)
      (by norm_num [total_weight])⟩

/-- C6 counterexample: a batch containing a record with non-positive
market_size is scored without any failure — `calculate_aidgi` validates
nothing and `np.log` does not raise — so the batch scoring does not fail
with the spec's InvalidMetricError (no such error exists in the code). -/
theorem c6_counterexample :
    score_batch [⟨"BadCo", 50, 20, 10, -1, 60⟩] ⟨0.35, 0.25, 0.20, 0.10, 0.10⟩ ≠
      Except.error ScoreError.invalidMetric := by
  simp [score_batch]

/-- C6 amended: batch scoring performs no input validation — even when the
first record's market_size is non-positive, the whole batch is scored and
returned; there is no InvalidMetricError path.  (On such input `np.log`
returns a non-finite junk value instead of raising.) -/
theorem c6_amended_no_validation (rows : List MetricRecord) (r : MetricRecord)
    (w : RawWeights) (_h : r.market_size ≤ 0) :
    score_batch (r :: rows) w = Except.ok
      ((r :: rows).map (fun row =>
        calculate_aidgi row w.ai_weight w.eff_weight w.rev_weight
          w.market_weight w.growth_weight)) := rfl

/-- Witness for the amended C6 at a concrete invalid record. -/
theorem c6_amended_no_validation_witness :
    (⟨"BadCo", 50, 20, 10, -1, 60⟩ : MetricRecord).market_size ≤ 0 ∧
    score_batch [⟨"BadCo", 50, 20, 10, -1, 60⟩] ⟨0.35, 0.25, 0.20, 0.10, 0.10⟩ =
      Except.ok ([(⟨"BadCo", 50, 20, 10, -1, 60⟩ : MetricRecord)].map (fun row =>
        calculate_aidgi row (0.35 : ℝ) 0.25 0.20 0.10 0.10)) :=
  ⟨by norm_num,
    c6_amended_no_validation [] ⟨"BadCo", 50, 20, 10, -1, 60⟩
      ⟨0.35, 0.25, 0.20, 0.10, 0.10⟩ (by norm_num)⟩

/-- C7 counterexample: looking up a name that is not in the table returns a
silently empty result (`ok []`), not a NotFoundError — no such error exists
in the code. -/
theorem c7_counterexample :
    detail_lookup (full_table ⟨0, 0, 1, 0, 0⟩) "Nonexistent" =
      Except.ok ([] : List ScoredRecord) ∧
    detail_lookup (full_table ⟨0, 0, 1, 0, 0⟩) "Nonexistent" ≠
      Except.error QueryError.notFound := by
  have h : detail_lookup (full_table ⟨0, 0, 1, 0, 0⟩) "Nonexistent" =
      Except.ok ([] : List ScoredRecord) := by
    rw [full_table_w0]
    simp [detail_lookup, filtered_df, healthcare, finance, retail,
      manufacturing, transportation, education, entertainment]
  refine ⟨h, ?_⟩
  rw [h]
  simp

/-- C7 amended: for a name present in the dataset the filter of line 163
returns exactly one record, and that record's name matches; for any other
name the lookup silently returns the empty list (`ok []`) instead of
failing. -/
theorem c7_amended_filter (w : RawWeights) (industry : String) :
    (industry ∈ data.map MetricRecord.industry →
      (filtered_df (full_table w) industry).length = 1 ∧
      ∀ e ∈ filtered_df (full_table w) industry, e.record.industry = industry) ∧
    (industry ∉ data.map MetricRecord.industry →
      detail_lookup (full_table w) industry = Except.ok []) := by
  have hcount : (filtered_df (full_table w) industry).length =
      List.count industry (data.map MetricRecord.industry) := by
    rw [filtered_df, ← List.countP_eq_length_filter,
      (perm_full_table w).countP_eq, score_rows, List.countP_map,
      List.count, List.countP_map]
    rfl
  constructor
  · intro hmem
    have hnodup : (data.map MetricRecord.industry).Nodup := by
      rw [data_names]
      decide
    refine ⟨by rw [hcount, List.count_eq_one_of_mem hnodup hmem], ?_⟩
    intro e he
    rw [filtered_df] at he
    exact eq_of_beq ((List.mem_filter.mp he).2)
  · intro hnmem
    have h0 : (filtered_df (full_table w) industry).length = 0 := by
      rw [hcount, List.count_eq_zero.mpr hnmem]
    rw [detail_lookup, List.length_eq_zero.mp h0]

/-- Witness for the amended C7: "Healthcare" is in the dataset and its
detail filter at weights (0, 0, 1, 0, 0) has exactly one row. -/
theorem c7_amended_filter_witness :
    "Healthcare" ∈ data.map MetricRecord.industry ∧
    (filtered_df (full_table ⟨0, 0, 1, 0, 0⟩) "Healthcare").length = 1 := by
  have hmem : "Healthcare" ∈ data.map MetricRecord.industry := by
    rw [data_names]
    decide
  exact ⟨hmem, ((c7_amended_filter ⟨0, 0, 1, 0, 0⟩ "Healthcare").1 hmem).1⟩

/-- Lifting a permutation of the scored rows to a permutation of the melt
projection, block by block. -/
lemma perm_melt_of_perm {t1 t2 : List ScoredRecord} (h : List.Perm t1 t2) :
    ∀ vars : List String, List.Perm (melt t1 vars) (melt t2 vars)
  | [] => List.Perm.refl _
  | v :: vs => by
    simp only [melt]
    exact List.Perm.append (h.map _) (perm_melt_of_perm h vs)

/-- Melting the freshly scored rows is literally melting the raw records:
the AIDGI column and the weights do not enter the projected triples. -/
lemma melt_score_rows (w : RawWeights) :
    ∀ vars : List String, melt (score_rows w) vars = melt_records data vars
  | [] => rfl
  | v :: vs => by
    simp only [melt, melt_records, melt_score_rows w vs]
    rw [score_rows, List.map_map]
    simp only [Function.comp_def]

/-- C8: for every requested list of metric columns, the melt projection of
the ranked table is (a permutation of) the (entity, metric, raw_value)
triples taken directly from the raw metric records, and is therefore
independent of the current weights: two runs with different weights yield
the same triples. -/
theorem c8_metric_comparison_raw (w v2 : RawWeights) (vars : List String) :
    List.Perm (melt (full_table w) vars) (melt_records data vars) ∧
    List.Perm (melt (full_table w) vars) (melt (full_table v2) vars) := by
  have h1 : ∀ u : RawWeights,
      List.Perm (melt (full_table u) vars) (melt_records data vars) := by
    intro u
    rw [← melt_score_rows u vars]
    exact perm_melt_of_perm (perm_full_table u) vars
  exact ⟨h1 w, (h1 w).trans (h1 v2).symm⟩

/-- C9: the spec's concrete scenario.  With the already-normalized weights
(0.35, 0.25, 0.20, 0.10, 0.10) applied to the Healthcare record
(ai_adoption 75, efficiency_improvement 30, revenue_growth 20,
market_size 200, growth_potential 90), the score is exactly
0.35*75 + 0.25*30 + 0.20*20 + 0.10*ln(200) + 0.10*exp(0.9), which is
within 0.01 of 38.53. -/
theorem c9_concrete_scenario :
    healthcare ∈ data ∧
    calculate_aidgi healthcare 0.35 0.25 0.20 0.10 0.10 =
      0.35 * 75 + 0.25 * 30 + 0.20 * 20 + 0.10 * Real.log 200 +
        0.10 * Real.exp 0.9 ∧
    |calculate_aidgi healthcare 0.35 0.25 0.20 0.10 0.10 - 38.53| < 0.01 := by
  have hform : calculate_aidgi healthcare 0.35 0.25 0.20 0.10 0.10 =
      0.35 * 75 + 0.25 * 30 + 0.20 * 20 + 0.10 * Real.log 200 +
        0.10 * Real.exp 0.9 := by
    norm_num [calculate_aidgi, healthcare]
  have llog : (5.2651 : ℝ) < Real.log 200 ∧ Real.log 200 < 5.3265 := by
    have l1 : Real.log 200 = 8 * Real.log 2 + Real.log (25 / 32) := by
      rw [show (200 : ℝ) = 2 ^ 8 * (25 / 32) by norm_num,
        Real.log_mul (by norm_num) (by norm_num), Real.log_pow]
      push_cast
      ring
    have l2 : Real.log (25 / 32) ≤ -(7 / 32) := by
      have := Real.log_le_sub_one_of_pos (x := (25 / 32 : ℝ)) (by norm_num)
      linarith
    have l3 : -(7 / 25 : ℝ) ≤ Real.log (25 / 32) := by
      have h := Real.log_le_sub_one_of_pos (x := (32 / 25 : ℝ)) (by norm_num)
      have h2 : Real.log (25 / 32) = -Real.log (32 / 25) := by
        rw [show (25 / 32 : ℝ) = (32 / 25)⁻¹ by norm_num, Real.log_inv]
      linarith
    have hlb := Real.log_two_gt_d9
    have hub := Real.log_two_lt_d9
    constructor <;> linarith
  have lexp : (2.446 : ℝ) < Real.exp 0.9 ∧ Real.exp 0.9 < 2.472 := by
    have e09 : (0.9 : ℝ) = 9 / 10 := by norm_num
    have key : Real.exp (9 / 10) * Real.exp (1 / 10) = Real.exp 1 := by
      rw [← Real.exp_add]
      norm_num
    have h01 : (11 / 10 : ℝ) < Real.exp (1 / 10) := by
      have := Real.add_one_lt_exp (x := (1 / 10 : ℝ)) (by norm_num)
      linarith
    have hneg : (9 / 10 : ℝ) < Real.exp (-(1 / 10)) := by
      have := Real.add_one_lt_exp (x := (-(1 / 10) : ℝ)) (by norm_num)
      linarith
    have key2 : Real.exp (9 / 10) = Real.exp 1 * Real.exp (-(1 / 10)) := by
      rw [← Real.exp_add]
      norm_num
    have he1lb := Real.exp_one_gt_d9
    have he1ub := Real.exp_one_lt_d9
    have hpos : (0 : ℝ) < Real.exp (9 / 10) := Real.exp_pos _
    rw [e09]
    constructor
    · have s1 : Real.exp 1 * (9 / 10) < Real.exp 1 * Real.exp (-(1 / 10)) :=
        mul_lt_mul_of_pos_left hneg (Real.exp_pos 1)
      have s2 : (2.7182818283 : ℝ) * (9 / 10) < Real.exp 1 * (9 / 10) :=
        mul_lt_mul_of_pos_right he1lb (by norm_num)
      rw [key2]
      linarith
    · have s1 : Real.exp (9 / 10) * (11 / 10) < Real.exp (9 / 10) * Real.exp (1 / 10) :=
        mul_lt_mul_of_pos_left h01 hpos
      linarith
  refine ⟨by simp [data], hform, ?_⟩
  rw [hform, abs_lt]
  constructor <;> [linarith [llog.1, lexp.1]; linarith [llog.2, lexp.2]]

/-- C10: for every weight vector, the ranked table holds exactly the seven
static records — none added, dropped or duplicated, and every name and raw
metric field unchanged — and only the AIDGI score column is computed from
the weights. -/
theorem c10_frame_preservation (w : RawWeights) :
    List.Perm ((full_table w).map ScoredRecord.record) data ∧
    ∀ e ∈ full_table w, e.aidgi = calculate_aidgi e.record w.ai_weight
      w.eff_weight w.rev_weight w.market_weight w.growth_weight := by
  constructor
  · have h1 : List.Perm ((full_table w).map ScoredRecord.record)
        ((score_rows w).map ScoredRecord.record) := (perm_full_table w).map _
    have h2 : (score_rows w).map ScoredRecord.record = data := by
      rw [score_rows, List.map_map]
      simp only [Function.comp_def]
      simp
    exact h2 ▸ h1
  · intro e he
    have h2 : e ∈ score_rows w := ((perm_full_table w).mem_iff).mp he
    rcases List.mem_map.mp h2 with ⟨row, _, rfl⟩
    rfl

/-- Witness for C10 at weights (0, 0, 1, 0, 0) and the Finance entry of the
concrete ranked table. -/
theorem c10_frame_preservation_witness :
    (⟨finance, 25⟩ : ScoredRecord) ∈ full_table ⟨0, 0, 1, 0, 0⟩ ∧
    (⟨finance, 25⟩ : ScoredRecord).aidgi = calculate_aidgi finance 0 0 1 0 0 := by
  have hm : (⟨finance, 25⟩ : ScoredRecord) ∈ full_table ⟨0, 0, 1, 0, 0⟩ := by
    rw [full_table_w0]
    simp
  exact ⟨hm, (c10_frame_preservation ⟨0, 0, 1, 0, 0⟩).2 ⟨finance, 25⟩ hm⟩
